import Mathlib

/-
Shallow embedding of the usage-tracking core of the chat-relay service.

Sources embedded here:
  - db.js (src/unnamed/part_000): the SQLite-backed usage ledger and history log
    (addChatEntry, getTokenUsage, isTokenLimitExceeded, getRecentChats,
     extendTokenLimit, clearDatabase).
  - tokenUtils.js (src/server/tokenUtils.js): simpleTokenEstimate.
  - streamService.js (src/unnamed/part_001): the commit tail of handleStreamingChat.
  - wsServer.js / wsBroadcast.js (src/server/websocket/wsServer.js): broadcastToAll
    and cleanupClosedConnections.
  - wsHandlers.js (src/server/websocket/wsHandlers.js): handleMessage dispatch and
    the inline extend / clear handlers.

Conventions: database rows become Lean structures; each awaited database statement
is one atomic state transition; a statement that can throw is modelled with an
explicit success flag, and a thrown error is an Except.error paired with the state
the caller observes afterwards. JS numbers that hold integer token counts become
Int (string lengths become Nat); the JS falsy test (null, undefined, 0) on a
numeric option becomes a match on Option with an explicit zero test.
-/

deriving instance DecidableEq for Except

namespace ChatRelay

/-- Usage ledger row of the usage_stats table: total_tokens_used and total_limit
(db.js, CREATE TABLE usage_stats). -/
structure UsageStats where
  total_tokens_used : Int
  total_limit : Int
deriving DecidableEq

/-- Chat history row of the chat_history table (db.js, CREATE TABLE chat_history).
The timestamp column defaults to CURRENT_TIMESTAMP, which is monotone in insertion
order; it is modelled by the insertion sequence number. -/
structure ChatEntry where
  id : Nat
  user_input : String
  response : String
  gemini_token_count : Int
  tiktoken_estimate : Option Int
  model : String
  temperature : Rat
  max_tokens : Int
  timestamp : Nat
deriving DecidableEq

/-- Whole database state: the single usage_stats row (Option, because the code
guards against a missing row), the chat_history table in insertion order, the
token_comparisons table (never written by the current code, but cleared by
clearDatabase), and the sqlite_sequence auto-increment counter for chat_history. -/
structure DbState where
  stats : Option UsageStats
  chat_history : List ChatEntry
  token_comparisons : List Nat
  seq : Nat
deriving DecidableEq

/-- Database state right after initializeDatabase on a fresh file: usage stats
initialized to 0 consumed with the initial limit 10000 (db.js, initialLimit). -/
def dbInit : DbState :=
  { stats := some { total_tokens_used := 0, total_limit := 10000 }
  , chat_history := []
  , token_comparisons := []
  , seq := 0 }

/-- Errors thrown by the database layer. The JS code throws Error values with
messages; the spec taxonomy names them: "Invalid extension amount" is an
invalid-argument rejection, "Extension amount exceeds the maximum allowed" is a
limit-exceeded rejection, "Usage stats not found in database" and any failure of
the external store are storage-side errors. -/
inductive DbError where
  | invalidArgument
  | limitExceeded
  | statsNotFound
  | storageFailure
deriving DecidableEq

/-- simpleTokenEstimate from tokenUtils.js: 0 for a falsy (empty) text, otherwise
Math.ceil(text.length / 4), which for a natural length is (length + 3) / 4 in
natural division. -/
def simpleTokenEstimate (text : String) : Nat :=
  if text.isEmpty then 0 else (text.length + 3) / 4

/-- Generation options carried by a chat request; fields are optional because the
JS code applies defaults with the falsy-or operator. -/
structure ChatOptions where
  temperature : Option Rat
  maxTokens : Option Int
deriving DecidableEq

/-- JS falsy-or on an optional rational: null, undefined and 0 all fall through
to the default (options?.temperature || 0.7 in addChatEntry). -/
def jsOrRat (x : Option Rat) (d : Rat) : Rat :=
  match x with
  | some v => if v = 0 then d else v
  | none => d

/-- JS falsy-or on an optional integer: null, undefined and 0 all fall through
to the default (options?.maxTokens || 1024 in addChatEntry). -/
def jsOrInt (x : Option Int) (d : Int) : Int :=
  match x with
  | some v => if v = 0 then d else v
  | none => d

/-- Token count chosen by addChatEntry: geminiTokenCount || simpleTokenEstimate(
userInput + response). A null, undefined or zero reported count is falsy in JS,
so the fallback estimate is used in exactly those cases. -/
def chooseTokenCount (gemini : Option Int) (fallback : Int) : Int :=
  match gemini with
  | some n => if n = 0 then fallback else n
  | none => fallback

/-- getTokenUsage from db.js: returns the usage_stats row, or the default
(0 consumed, limit 10000) when the row is missing. -/
def getTokenUsage (s : DbState) : UsageStats :=
  s.stats.getD { total_tokens_used := 0, total_limit := 10000 }

/-- One execution of the atomic SQL statement
UPDATE usage_stats SET total_tokens_used = total_tokens_used + ?
(db.js, addChatEntry). The statement carries no limit check: it always succeeds,
also at or past the limit. When the stats row is missing the update touches no
row. -/
def incrementUsage (amount : Int) (s : DbState) : DbState :=
  { s with stats := s.stats.map fun u =>
      { u with total_tokens_used := u.total_tokens_used + amount } }

/-- isTokenLimitExceeded from db.js: total_tokens_used >= total_limit on the
current usage stats. -/
def isTokenLimitExceeded (s : DbState) : Bool :=
  decide ((getTokenUsage s).total_tokens_used ≥ (getTokenUsage s).total_limit)

/-- Result of addChatEntry: the new row id and the number of tokens added. -/
structure AddResult where
  chatId : Nat
  tokensAdded : Int
deriving DecidableEq

/-- addChatEntry from db.js. Chooses the token count (reported count if truthy,
otherwise the estimate over the concatenation userInput + response), INSERTs the
chat_history row, then UPDATEs the usage total by the same count. The two
statements are separate awaited calls; insertOk and updateOk inject a possible
throw of each statement: a failed INSERT leaves the state untouched and the
error propagates, a failed UPDATE leaves the inserted row in place without any
increment. -/
def addChatEntry (userInput response : String) (gemini : Option Int)
    (modelName : String) (opts : ChatOptions) (insertOk updateOk : Bool)
    (s : DbState) : DbState × Except DbError AddResult :=
  let tokenCount : Int :=
    chooseTokenCount gemini (simpleTokenEstimate (userInput ++ response) : Nat)
  if insertOk then
    let chatId := s.seq + 1
    let entry : ChatEntry :=
      { id := chatId
      , user_input := userInput
      , response := response
      , gemini_token_count := tokenCount
      , tiktoken_estimate := none
      , model := modelName
      , temperature := jsOrRat opts.temperature (7 / 10)
      , max_tokens := jsOrInt opts.maxTokens 1024
      , timestamp := chatId }
    let s1 : DbState := { s with chat_history := s.chat_history ++ [entry], seq := chatId }
    if updateOk then
      (incrementUsage tokenCount s1, Except.ok { chatId := chatId, tokensAdded := tokenCount })
    else
      (s1, Except.error DbError.storageFailure)
  else
    (s, Except.error DbError.storageFailure)

/-- getRecentChats from db.js: SELECT ... ORDER BY timestamp DESC LIMIT ?.
Timestamps are monotone in insertion order, so the query returns the newest
entries first, at most the requested number. -/
def getRecentChats (limit : Nat) (s : DbState) : List ChatEntry :=
  s.chat_history.reverse.take limit

/-- Result of extendTokenLimit on success. -/
structure ExtendResult where
  success : Bool
  previousLimit : Int
  newLimit : Int
  amountAdded : Int
  currentUsage : Int
deriving DecidableEq

/-- extendTokenLimit from db.js. Validation happens before any database access:
amount <= 0 (including the NaN guard) throws the invalid-argument error and
amount > maxAllowedExtension throws the limit-exceeded error, in both cases
before any mutation. Otherwise the code SELECTs total_limit, computes
previous + amount in JS, UPDATEs total_limit to that value, re-reads the stats
and returns the before and after state. -/
def extendTokenLimit (amountToAdd maxAllowedExtension : Int) (s : DbState) :
    DbState × Except DbError ExtendResult :=
  if amountToAdd ≤ 0 then
    (s, Except.error DbError.invalidArgument)
  else if amountToAdd > maxAllowedExtension then
    (s, Except.error DbError.limitExceeded)
  else
    match s.stats with
    | none => (s, Except.error DbError.statsNotFound)
    | some cur =>
      let newLimit := cur.total_limit + amountToAdd
      let s1 : DbState := { s with stats := some { cur with total_limit := newLimit } }
      let updated := getTokenUsage s1
      (s1, Except.ok
        { success := true
        , previousLimit := cur.total_limit
        , newLimit := updated.total_limit
        , amountAdded := amountToAdd
        , currentUsage := updated.total_tokens_used })

/-- clearDatabase from db.js. Inside BEGIN TRANSACTION ... COMMIT it deletes
token_comparisons and chat_history, resets total_tokens_used to 0 keeping the
limit, and resets the auto-increment counters. storeOk injects a possible store
failure inside the transaction: on failure the ROLLBACK restores the state from
before the call, so either every change commits or none does. -/
def clearDatabase (storeOk : Bool) (s : DbState) : DbState × Except DbError Bool :=
  if storeOk then
    ({ s with chat_history := []
            , token_comparisons := []
            , stats := s.stats.map fun u => { u with total_tokens_used := 0 }
            , seq := 0 }
     , Except.ok true)
  else
    (s, Except.error DbError.storageFailure)

/-- Outcome of the commit tail of handleStreamingChat (streamService.js): the
database state the caller observes, whether broadcastUpdate ran, and the result
surfaced to the caller. -/
structure CommitOutcome where
  db : DbState
  broadcasted : Bool
  result : Except DbError AddResult
deriving DecidableEq

/-- Commit tail of handleStreamingChat (streamService.js, after the stream
completes): it calls addChatEntry with the accumulated full response and the
extracted count, then broadcasts the update. When addChatEntry throws, the catch
branch reports the error through the stream controller and broadcastUpdate is
never reached. -/
def handleStreamingChatCommit (userMessage fullResponse : String)
    (geminiTokenCount : Option Int) (modelName : String) (opts : ChatOptions)
    (insertOk updateOk : Bool) (s : DbState) : CommitOutcome :=
  match addChatEntry userMessage fullResponse geminiTokenCount modelName opts
      insertOk updateOk s with
  | (s1, Except.ok r) => { db := s1, broadcasted := true, result := Except.ok r }
  | (s1, Except.error e) => { db := s1, broadcasted := false, result := Except.error e }

/-- WebSocket readyState values (CONNECTING, OPEN, CLOSING, CLOSED). -/
inductive ReadyState where
  | connecting
  | opened
  | closing
  | closed
deriving DecidableEq

/-- One registered WebSocket client as the broadcaster sees it: its identifier,
the transport readyState at broadcast time, and whether a send on it succeeds
(a failing send throws and is caught per client). -/
structure WClient where
  id : Nat
  readyState : ReadyState
  sendOk : Bool
deriving DecidableEq

/-- Test used by broadcastToAll and cleanupClosedConnections in wsBroadcast.js:
readyState is CLOSED or CLOSING. -/
def isClosedOrClosing (c : WClient) : Bool :=
  c.readyState = ReadyState.closed ∨ c.readyState = ReadyState.closing

/-- cleanupClosedConnections from wsBroadcast.js: collects every client whose
readyState is CLOSED or CLOSING and deletes them from the registry, keeping the
rest. -/
def cleanupClosedConnections (reg : List WClient) : List WClient :=
  reg.filter fun c => ¬ isClosedOrClosing c

/-- One forEach pass of broadcastToAll (wsBroadcast.js) over the registry, in
registry order: for an OPEN client the send is attempted (and counted when it
does not throw; a throw is caught and logged, and the loop continues with the
next client); a CLOSED or CLOSING client is counted as closed; a CONNECTING
client is skipped. Returns the ids whose send was attempted, the ids actually
delivered to, and the number of closed connections detected. -/
def broadcastPass : List WClient → List Nat × List Nat × Nat
  | [] => ([], [], 0)
  | c :: rest =>
    let r := broadcastPass rest
    if c.readyState = ReadyState.opened then
      if c.sendOk then
        (c.id :: r.1, c.id :: r.2.1, r.2.2)
      else
        (c.id :: r.1, r.2.1, r.2.2)
    else if isClosedOrClosing c then
      (r.1, r.2.1, r.2.2 + 1)
    else
      r

/-- Outcome of broadcastToAll: attempted sends, successful deliveries, closed
connections detected, and the registry after the call. -/
structure BroadcastOutcome where
  attempted : List Nat
  delivered : List Nat
  closedDetected : Nat
  registry : List WClient
deriving DecidableEq

/-- broadcastToAll from wsBroadcast.js: one pass over the registry sending the
payload to every OPEN client, then, if any CLOSED or CLOSING connection was
detected during the pass, a cleanupClosedConnections pass over the registry. -/
def broadcastToAll (reg : List WClient) : BroadcastOutcome :=
  let r := broadcastPass reg
  { attempted := r.1
  , delivered := r.2.1
  , closedDetected := r.2.2
  , registry := if r.2.2 > 0 then cleanupClosedConnections reg else reg }

/-- Effect of handling one inbound WebSocket message (wsHandlers.js): the
database state afterwards, the registry afterwards, the type tags of the
responses sent back to the requesting socket, and the type tags broadcast to the
other clients, each in send order. -/
structure WsOutcome where
  db : DbState
  registry : List WClient
  toSender : List String
  toOthers : List String
deriving DecidableEq

/-- handleExtendLimit from wsHandlers.js. parseInt of a missing or non-numeric
amount is NaN (modelled as none); a falsy, NaN or non-positive amount is
rejected with a success:false extendLimitResponse, an amount above
config.maxExtensionAmount (20000) likewise; otherwise the handler SELECTs
total_limit (falling back to config.defaultTokenLimit when the row is missing),
UPDATEs it to previous + amount, answers the sender with extendLimitResponse and
broadcasts an update to the others. -/
def handleExtendLimit (amount : Option Int) (s : DbState) (reg : List WClient) :
    WsOutcome :=
  match amount with
  | none => { db := s, registry := reg, toSender := ["extendLimitResponse"], toOthers := [] }
  | some a =>
    if a ≤ 0 then
      { db := s, registry := reg, toSender := ["extendLimitResponse"], toOthers := [] }
    else if a > 20000 then
      { db := s, registry := reg, toSender := ["extendLimitResponse"], toOthers := [] }
    else
      let s1 : DbState :=
        { s with stats := s.stats.map fun u => { u with total_limit := u.total_limit + a } }
      { db := s1, registry := reg, toSender := ["extendLimitResponse"], toOthers := ["update"] }

/-- handleClearDatabase from wsHandlers.js (success path of its transaction):
deletes chat_history, resets total_tokens_used to 0 keeping the limit, resets
the chat_history auto-increment counter, answers the sender with
clearDatabaseResponse and broadcasts an update to the others. -/
def handleClearDatabase (s : DbState) (reg : List WClient) : WsOutcome :=
  { db := { s with chat_history := []
                 , stats := s.stats.map fun u => { u with total_tokens_used := 0 }
                 , seq := 0 }
  , registry := reg
  , toSender := ["clearDatabaseResponse"]
  , toOthers := ["update"] }

/-- handleMessage from wsHandlers.js: dispatch on the type discriminator of the
inbound message. requestUpdate answers with an update, ping with a pong,
getClients with a clientList; extendLimit and clearDatabase run their handlers;
any other type falls to the default branch, which sends one response tagged
error back to the sender and touches nothing. -/
def handleMessage (msgType : String) (amount : Option Int) (s : DbState)
    (reg : List WClient) : WsOutcome :=
  if msgType = "requestUpdate" then
    { db := s, registry := reg, toSender := ["update"], toOthers := [] }
  else if msgType = "extendLimit" then
    handleExtendLimit amount s reg
  else if msgType = "clearDatabase" then
    handleClearDatabase s reg
  else if msgType = "ping" then
    { db := s, registry := reg, toSender := ["pong"], toOthers := [] }
  else if msgType = "getClients" then
    { db := s, registry := reg, toSender := ["clientList"], toOthers := [] }
  else
    { db := s, registry := reg, toSender := ["error"], toOthers := [] }

/-- Usage block emitted inside update payloads and the usage endpoint response. -/
structure UsagePayload where
  totalTokensUsed : Int
  limit : Int
  remaining : Int
  exceeded : Bool
deriving DecidableEq

/-- Usage block of the update payload composed by broadcastUpdate in
wsBroadcast.js: remaining is Math.max(0, limit - used) and exceeded is
used >= limit. -/
def broadcastUpdatePayload (s : DbState) : UsagePayload :=
  let usage := getTokenUsage s
  { totalTokensUsed := usage.total_tokens_used
  , limit := usage.total_limit
  , remaining := max 0 (usage.total_limit - usage.total_tokens_used)
  , exceeded := decide (usage.total_tokens_used ≥ usage.total_limit) }

/-- Usage block of the update response sent by handleRequestUpdate in
wsHandlers.js: remaining is Math.max(0, limit - used) and exceeded is
used >= limit. -/
def requestUpdatePayload (s : DbState) : UsagePayload :=
  let usage := getTokenUsage s
  { totalTokensUsed := usage.total_tokens_used
  , limit := usage.total_limit
  , remaining := max 0 (usage.total_limit - usage.total_tokens_used)
  , exceeded := decide (usage.total_tokens_used ≥ usage.total_limit) }

/-- Usage response of the GET /api/usage endpoint (apiRoutes.js): when
used >= limit it answers remaining 0 and exceeded true, otherwise
remaining Math.max(0, limit - used) and exceeded false, both with status 200. -/
def apiUsagePayload (s : DbState) : UsagePayload :=
  let usage := getTokenUsage s
  if usage.total_tokens_used ≥ usage.total_limit then
    { totalTokensUsed := usage.total_tokens_used
    , limit := usage.total_limit
    , remaining := 0
    , exceeded := true }
  else
    { totalTokensUsed := usage.total_tokens_used
    , limit := usage.total_limit
    , remaining := max 0 (usage.total_limit - usage.total_tokens_used)
    , exceeded := false }

/-- One in-flight extendTokenLimit call, reduced to its database interactions
(db.js lines 204 to 212): program counter 0 is before the awaited
SELECT total_limit, program counter 1 is after the SELECT (the read limit held
in the JS local currentStats) and before the awaited UPDATE, program counter 2
is done. -/
structure ExtendThread where
  amount : Int
  prevRead : Option Int
  pc : Nat
deriving DecidableEq

/-- One atomic database step of an in-flight extend: at program counter 0 the
SELECT reads the shared limit into the local; at program counter 1 the UPDATE
writes local + amount, a value computed in JS from the earlier read. Returns the
new shared limit and the advanced thread. -/
def stepExtend (limit : Int) (t : ExtendThread) : Int × ExtendThread :=
  match t.pc, t.prevRead with
  | 0, _ => (limit, { t with prevRead := some limit, pc := 1 })
  | 1, some p => (p + t.amount, { t with pc := 2 })
  | _, _ => (limit, t)

/-- Interleaved execution of two concurrent extend calls over the shared limit:
the schedule says which call performs its next atomic database step. Each
listed step runs one awaited statement of one call; await boundaries are
exactly where the event loop can interleave the two handlers. -/
def runExtendRace (limit : Int) (t1 t2 : ExtendThread) : List Bool → Int
  | [] => limit
  | true :: rest =>
    let r := stepExtend limit t1
    runExtendRace r.1 r.2 t2 rest
  | false :: rest =>
    let r := stepExtend limit t2
    runExtendRace r.1 t1 r.2 rest

/-- Interleaved execution of concurrent increment calls: each increment is the
single atomic statement UPDATE usage_stats SET total_tokens_used =
total_tokens_used + ? (db.js lines 111 to 114), so an interleaving is a
permutation of the amounts, folded over the shared counter. -/
def runIncrements (init : Int) (amounts : List Int) : Int :=
  amounts.foldl (· + ·) init

/-- Guard in simpleTokenEstimate is redundant: the estimate is always the
ceiling (length + 3) / 4, also for the empty text. -/
theorem simpleTokenEstimate_eq_ceil (t : String) :
    simpleTokenEstimate t = (t.length + 3) / 4 := by
  unfold simpleTokenEstimate
  by_cases h : t.isEmpty
  · rw [if_pos h]
    rw [String.isEmpty_iff] at h
    subst h
    rfl
  · rw [if_neg h]

/-- Estimate over a concatenation is the ceiling over the sum of the lengths. -/
theorem simpleTokenEstimate_append (P T : String) :
    simpleTokenEstimate (P ++ T) = (P.length + T.length + 3) / 4 := by
  rw [simpleTokenEstimate_eq_ceil, String.length_append]

/-- Evaluation of addChatEntry when both database statements succeed: one row is
appended, the sequence advances, and the usage total grows by the chosen token
count. -/
theorem addChatEntry_ok (P T md : String) (g : Option Int) (opts : ChatOptions)
    (s : DbState) :
    addChatEntry P T g md opts true true s =
      ({ s with
          chat_history := s.chat_history ++
            [{ id := s.seq + 1
             , user_input := P
             , response := T
             , gemini_token_count := chooseTokenCount g (simpleTokenEstimate (P ++ T) : Nat)
             , tiktoken_estimate := none
             , model := md
             , temperature := jsOrRat opts.temperature (7 / 10)
             , max_tokens := jsOrInt opts.maxTokens 1024
             , timestamp := s.seq + 1 }]
        , seq := s.seq + 1
        , stats := s.stats.map fun u =>
            { u with total_tokens_used :=
                u.total_tokens_used + chooseTokenCount g (simpleTokenEstimate (P ++ T) : Nat) } }
      , Except.ok
          { chatId := s.seq + 1
          , tokensAdded := chooseTokenCount g (simpleTokenEstimate (P ++ T) : Nat) }) := by
  rfl

/-- C1: starting from the ledger state with consumed 0 and limit 10000, the
sequence increment 4000, extend 5000 with maxAllowed 20000, isExceeded,
increment 11000, isExceeded yields exactly the states and results 4000 of
10000, previousLimit 10000 with newLimit 15000, false, 15000 of 15000, true;
the increment past the limit succeeds (increments never reject) and isExceeded
returns consumed at least limit. -/
theorem C1_ledger_scenario :
    getTokenUsage (incrementUsage 4000 dbInit) =
      { total_tokens_used := 4000, total_limit := 10000 } ∧
    (extendTokenLimit 5000 20000 (incrementUsage 4000 dbInit)).2 =
      Except.ok
        { success := true
        , previousLimit := 10000
        , newLimit := 15000
        , amountAdded := 5000
        , currentUsage := 4000 } ∧
    isTokenLimitExceeded (extendTokenLimit 5000 20000 (incrementUsage 4000 dbInit)).1 = false ∧
    getTokenUsage
        (incrementUsage 11000 (extendTokenLimit 5000 20000 (incrementUsage 4000 dbInit)).1) =
      { total_tokens_used := 15000, total_limit := 15000 } ∧
    isTokenLimitExceeded
        (incrementUsage 11000 (extendTokenLimit 5000 20000 (incrementUsage 4000 dbInit)).1) =
      true := by
  decide

/-- C2: committing a completed generation with no authoritative model-reported
token count records one history entry and increments the consumed counter by
exactly the ceiling of (length of prompt plus length of accumulated text) over
4, that is the estimate over the concatenation of the two texts, not a sum of
separate per-text estimates. -/
theorem C2_estimate_over_concatenation (P T md : String) (opts : ChatOptions)
    (u : UsageStats) (s : DbState) (h : s.stats = some u) :
    (∃ e : ChatEntry,
      (handleStreamingChatCommit P T none md opts true true s).db.chat_history =
        s.chat_history ++ [e]) ∧
    (handleStreamingChatCommit P T none md opts true true s).db.stats =
      some { u with total_tokens_used :=
          u.total_tokens_used + (((P.length + T.length + 3) / 4 : Nat) : Int) } ∧
    (handleStreamingChatCommit P T none md opts true true s).result =
      Except.ok
        { chatId := s.seq + 1
        , tokensAdded := (((P.length + T.length + 3) / 4 : Nat) : Int) } := by
  have hconcat := simpleTokenEstimate_append P T
  refine ⟨⟨{ id := s.seq + 1
           , user_input := P
           , response := T
           , gemini_token_count := chooseTokenCount none (simpleTokenEstimate (P ++ T) : Nat)
           , tiktoken_estimate := none
           , model := md
           , temperature := jsOrRat opts.temperature (7 / 10)
           , max_tokens := jsOrInt opts.maxTokens 1024
           , timestamp := s.seq + 1 }, ?_⟩, ?_, ?_⟩ <;>
    simp [handleStreamingChatCommit, addChatEntry_ok, chooseTokenCount, h, hconcat]

/-- Witness for C2 at the prompt "abcde" and accumulated text "xy": the
concatenation has 7 characters, so the increment is 2 tokens. The sum of the
separate estimates would be 3, which shows the estimate is taken over the
concatenation. -/
theorem C2_estimate_over_concatenation_witness :
    ((∃ e : ChatEntry,
      (handleStreamingChatCommit "abcde" "xy" none "gemini-1.5-flash"
          { temperature := none, maxTokens := none } true true dbInit).db.chat_history =
        ([] : List ChatEntry) ++ [e]) ∧
    (handleStreamingChatCommit "abcde" "xy" none "gemini-1.5-flash"
        { temperature := none, maxTokens := none } true true dbInit).db.stats =
      some { total_tokens_used := 0 + (((("abcde".length + "xy".length + 3) / 4 : Nat)) : Int)
           , total_limit := 10000 } ∧
    (handleStreamingChatCommit "abcde" "xy" none "gemini-1.5-flash"
        { temperature := none, maxTokens := none } true true dbInit).result =
      Except.ok
        { chatId := 0 + 1
        , tokensAdded := ((("abcde".length + "xy".length + 3) / 4 : Nat) : Int) }) ∧
    ("abcde".length + "xy".length + 3) / 4 = 2 ∧
    ("abcde".length + 3) / 4 + ("xy".length + 3) / 4 = 3 :=
  ⟨C2_estimate_over_concatenation "abcde" "xy" "gemini-1.5-flash"
      { temperature := none, maxTokens := none }
      { total_tokens_used := 0, total_limit := 10000 } dbInit rfl,
    by decide, by decide⟩

/-- C3: extend with a non-positive amount fails with the invalid-argument error,
extend with an amount above maxAllowed fails with the limit-exceeded error, and
in every failure case the state (limit and consumed counter included) is the one
from before the call, because the rejection happens before any mutation;
otherwise the limit grows by the amount and the call returns previousLimit,
newLimit equal to previousLimit plus amount, and the current usage. -/
theorem C3_extend_validation (a m : Int) (s : DbState) :
    (a ≤ 0 →
      extendTokenLimit a m s = (s, Except.error DbError.invalidArgument)) ∧
    (0 < a → m < a →
      extendTokenLimit a m s = (s, Except.error DbError.limitExceeded)) ∧
    (∀ e, (extendTokenLimit a m s).2 = Except.error e → (extendTokenLimit a m s).1 = s) ∧
    (∀ u, s.stats = some u → 0 < a → a ≤ m →
      extendTokenLimit a m s =
        ({ s with stats := some { u with total_limit := u.total_limit + a } }
        , Except.ok
            { success := true
            , previousLimit := u.total_limit
            , newLimit := u.total_limit + a
            , amountAdded := a
            , currentUsage := u.total_tokens_used })) := by
  refine ⟨?_, ?_, ?_, ?_⟩
  · intro ha
    simp [extendTokenLimit, ha]
  · intro ha hm
    rw [extendTokenLimit, if_neg (by omega), if_pos (by omega)]
  · intro e he
    rw [extendTokenLimit] at he ⊢
    by_cases h1 : a ≤ 0
    · simp [h1]
    · by_cases h2 : a > m
      · simp [h1, h2]
      · simp only [if_neg h1, if_neg h2] at he ⊢
        cases hs : s.stats with
        | none => simp [hs]
        | some cur => simp [hs] at he
  · intro u hu ha hm
    rw [extendTokenLimit, if_neg (by omega), if_neg (by omega), hu]
    simp [getTokenUsage]

/-- Witness for C3: from the initial state, extend 0 and extend of a negative
amount are rejected as invalid arguments, extend 25000 above the maximum 20000
is rejected as limit exceeded, each leaving the state untouched, and extend 5000
succeeds, moving the limit from 10000 to 15000. -/
theorem C3_extend_validation_witness :
    (extendTokenLimit 0 20000 dbInit = (dbInit, Except.error DbError.invalidArgument)) ∧
    (extendTokenLimit (-5) 20000 dbInit = (dbInit, Except.error DbError.invalidArgument)) ∧
    (extendTokenLimit 25000 20000 dbInit = (dbInit, Except.error DbError.limitExceeded)) ∧
    (extendTokenLimit 5000 20000 dbInit =
      ({ dbInit with stats := some { total_tokens_used := 0, total_limit := 10000 + 5000 } }
      , Except.ok
          { success := true
          , previousLimit := 10000
          , newLimit := 10000 + 5000
          , amountAdded := 5000
          , currentUsage := 0 })) :=
  ⟨(C3_extend_validation 0 20000 dbInit).1 (by decide)
  , (C3_extend_validation (-5) 20000 dbInit).1 (by decide)
  , (C3_extend_validation 25000 20000 dbInit).2.1 (by decide) (by decide)
  , (C3_extend_validation 5000 20000 dbInit).2.2.2
      { total_tokens_used := 0, total_limit := 10000 } rfl (by decide) (by decide)⟩

/-- C4: after a successful clear, recent returns the empty sequence for every
bound, the identifier sequence is reset, the consumed counter reads 0 and the
limit reads its value from before the call; and for any outcome of the
transaction either nothing changed (rollback) or both the history truncation
and the consumed reset are visible (commit), never one without the other. -/
theorem C4_clear_database (s : DbState) (storeOk : Bool) :
    (∀ n, getRecentChats n (clearDatabase true s).1 = []) ∧
    (clearDatabase true s).1.seq = 0 ∧
    (getTokenUsage (clearDatabase true s).1).total_tokens_used = 0 ∧
    (getTokenUsage (clearDatabase true s).1).total_limit = (getTokenUsage s).total_limit ∧
    ((clearDatabase storeOk s).1 = s ∨
      ((clearDatabase storeOk s).1.chat_history = [] ∧
        (getTokenUsage (clearDatabase storeOk s).1).total_tokens_used = 0)) := by
  refine ⟨?_, ?_, ?_, ?_, ?_⟩
  · intro n
    simp [getRecentChats, clearDatabase]
  · simp [clearDatabase]
  · cases hs : s.stats with
    | none => simp [clearDatabase, getTokenUsage, hs]
    | some u => simp [clearDatabase, getTokenUsage, hs]
  · cases hs : s.stats with
    | none => simp [clearDatabase, getTokenUsage, hs]
    | some u => simp [clearDatabase, getTokenUsage, hs]
  · cases storeOk with
    | false => exact Or.inl rfl
    | true =>
      refine Or.inr ⟨by simp [clearDatabase], ?_⟩
      cases hs : s.stats with
      | none => simp [clearDatabase, getTokenUsage, hs]
      | some u => simp [clearDatabase, getTokenUsage, hs]

/-- C5: on the commit path the history append runs before the ledger increment
and the broadcast; the appended entry and the increment carry the same token
magnitude, with exactly one increment per committed entry; and when the append
fails, neither the consumed counter nor the broadcast happens, the shared state
is the one from before the call and the error is surfaced to the caller. -/
theorem C5_commit_sequence (P T md : String) (g : Option Int) (opts : ChatOptions)
    (updateOk : Bool) (u : UsageStats) (s : DbState) (h : s.stats = some u) :
    (handleStreamingChatCommit P T g md opts false updateOk s =
      { db := s, broadcasted := false, result := Except.error DbError.storageFailure }) ∧
    (∃ e : ChatEntry,
      (handleStreamingChatCommit P T g md opts true true s).db.chat_history =
        s.chat_history ++ [e] ∧
      (handleStreamingChatCommit P T g md opts true true s).db.stats =
        some { u with total_tokens_used := u.total_tokens_used + e.gemini_token_count } ∧
      (handleStreamingChatCommit P T g md opts true true s).broadcasted = true ∧
      (handleStreamingChatCommit P T g md opts true true s).result =
        Except.ok { chatId := s.seq + 1, tokensAdded := e.gemini_token_count }) ∧
    (∃ e : ChatEntry,
      (handleStreamingChatCommit P T g md opts true false s).db =
        { s with chat_history := s.chat_history ++ [e], seq := s.seq + 1 } ∧
      (handleStreamingChatCommit P T g md opts true false s).broadcasted = false ∧
      (handleStreamingChatCommit P T g md opts true false s).result =
        Except.error DbError.storageFailure) := by
  refine ⟨?_, ?_, ?_⟩
  · rfl
  · refine ⟨{ id := s.seq + 1
            , user_input := P
            , response := T
            , gemini_token_count := chooseTokenCount g (simpleTokenEstimate (P ++ T) : Nat)
            , tiktoken_estimate := none
            , model := md
            , temperature := jsOrRat opts.temperature (7 / 10)
            , max_tokens := jsOrInt opts.maxTokens 1024
            , timestamp := s.seq + 1 }, ?_, ?_, ?_, ?_⟩ <;>
      simp [handleStreamingChatCommit, addChatEntry_ok, h]
  · refine ⟨{ id := s.seq + 1
            , user_input := P
            , response := T
            , gemini_token_count := chooseTokenCount g (simpleTokenEstimate (P ++ T) : Nat)
            , tiktoken_estimate := none
            , model := md
            , temperature := jsOrRat opts.temperature (7 / 10)
            , max_tokens := jsOrInt opts.maxTokens 1024
            , timestamp := s.seq + 1 }, ?_, ?_, ?_⟩ <;>
      rfl

/-- Witness for C5 at a concrete prompt, response and initial state: the failed
append leaves everything untouched and surfaces the error, and the successful
commit appends one entry whose token count equals the ledger increment. -/
theorem C5_commit_sequence_witness :
    ((handleStreamingChatCommit "hi" "there" none "gemini-1.5-flash"
        { temperature := none, maxTokens := none } false true dbInit =
      { db := dbInit, broadcasted := false, result := Except.error DbError.storageFailure }) ∧
    (∃ e : ChatEntry,
      (handleStreamingChatCommit "hi" "there" none "gemini-1.5-flash"
          { temperature := none, maxTokens := none } true true dbInit).db.chat_history =
        ([] : List ChatEntry) ++ [e] ∧
      (handleStreamingChatCommit "hi" "there" none "gemini-1.5-flash"
          { temperature := none, maxTokens := none } true true dbInit).db.stats =
        some { total_tokens_used := 0 + e.gemini_token_count, total_limit := 10000 } ∧
      (handleStreamingChatCommit "hi" "there" none "gemini-1.5-flash"
          { temperature := none, maxTokens := none } true true dbInit).broadcasted = true ∧
      (handleStreamingChatCommit "hi" "there" none "gemini-1.5-flash"
          { temperature := none, maxTokens := none } true true dbInit).result =
        Except.ok { chatId := 0 + 1, tokensAdded := e.gemini_token_count }) ∧
    (∃ e : ChatEntry,
      (handleStreamingChatCommit "hi" "there" none "gemini-1.5-flash"
          { temperature := none, maxTokens := none } true false dbInit).db =
        { dbInit with chat_history := [] ++ [e], seq := 0 + 1 } ∧
      (handleStreamingChatCommit "hi" "there" none "gemini-1.5-flash"
          { temperature := none, maxTokens := none } true false dbInit).broadcasted = false ∧
      (handleStreamingChatCommit "hi" "there" none "gemini-1.5-flash"
          { temperature := none, maxTokens := none } true false dbInit).result =
        Except.error DbError.storageFailure)) :=
  C5_commit_sequence "hi" "there" "gemini-1.5-flash" none
    { temperature := none, maxTokens := none } true
    { total_tokens_used := 0, total_limit := 10000 } dbInit rfl

/-- Folding increments from any start equals the start plus the sum. -/
theorem runIncrements_eq_add_sum (l : List Int) (init : Int) :
    runIncrements init l = init + l.sum := by
  induction l generalizing init with
  | nil => simp [runIncrements]
  | cons x xs ih =>
    show (x :: xs).foldl (· + ·) init = init + (x :: xs).sum
    rw [List.foldl_cons, List.sum_cons]
    have hx : xs.foldl (· + ·) (init + x) = runIncrements (init + x) xs := rfl
    rw [hx, ih (init + x)]
    ring

/-- Increments are single atomic statements, so no interleaving loses an
update: any execution order of concurrent increments yields the initial value
plus the sum of all amounts. This is the half of the concurrency property the
code satisfies. -/
theorem runIncrements_no_lost_update (init : Int) (amounts order : List Int)
    (h : amounts.Perm order) : runIncrements init order = init + amounts.sum := by
  rw [runIncrements_eq_add_sum, h.sum_eq]

/-- C6 (evaluation at the failing interleaving): the limit update of
extendTokenLimit is a read in one awaited statement followed by a write of a
JS-computed value in another, with no transaction around the pair. In the
interleaving where both concurrent extends (amounts 5000 and 3000, limit 10000)
perform their SELECT before either UPDATE, the final limit is 13000: the first
extension is lost, while the claim requires 18000 for every interleaving. -/
theorem C6_extend_race_loses_update :
    runExtendRace 10000 { amount := 5000, prevRead := none, pc := 0 }
        { amount := 3000, prevRead := none, pc := 0 }
        [true, false, true, false] = 13000 ∧
    (13000 : Int) ≠ 10000 + 5000 + 3000 := by
  decide

/-- Attempted sends of one broadcast pass are exactly the OPEN clients, in
registry order. -/
theorem broadcastPass_attempted (reg : List WClient) :
    (broadcastPass reg).1 =
      (reg.filter fun c => decide (c.readyState = ReadyState.opened)).map WClient.id := by
  induction reg with
  | nil => rfl
  | cons c rest ih =>
    by_cases h : c.readyState = ReadyState.opened
    · by_cases hs : c.sendOk <;> simp [broadcastPass, h, hs, ih]
    · by_cases hc : isClosedOrClosing c = true <;> simp [broadcastPass, h, hc, ih]

/-- Successful deliveries of one broadcast pass are exactly the OPEN clients
whose send does not throw, in registry order. -/
theorem broadcastPass_delivered (reg : List WClient) :
    (broadcastPass reg).2.1 =
      (reg.filter fun c => decide (c.readyState = ReadyState.opened) && c.sendOk).map WClient.id := by
  induction reg with
  | nil => rfl
  | cons c rest ih =>
    by_cases h : c.readyState = ReadyState.opened
    · by_cases hs : c.sendOk <;> simp [broadcastPass, h, hs, ih]
    · by_cases hc : isClosedOrClosing c = true <;> simp [broadcastPass, h, hc, ih]

/-- Closed connections detected by one broadcast pass are exactly the CLOSED or
CLOSING clients. -/
theorem broadcastPass_closedDetected (reg : List WClient) :
    (broadcastPass reg).2.2 = (reg.filter isClosedOrClosing).length := by
  induction reg with
  | nil => rfl
  | cons c rest ih =>
    by_cases h : c.readyState = ReadyState.opened
    · have hc : isClosedOrClosing c = false := by
        simp [isClosedOrClosing, h]
      by_cases hs : c.sendOk <;> simp [broadcastPass, h, hs, hc, ih]
    · by_cases hc : isClosedOrClosing c = true
      · simp [broadcastPass, h, hc, ih]
      · simp [broadcastPass, h, hc, ih]

/-- C7: one broadcast attempts the payload exactly once for each connection
whose transport is OPEN and for no other; one recipient failing to accept the
send, or being non-OPEN, never prevents any other OPEN recipient from receiving
its copy (the delivered list is the filter of the whole registry); and whenever
a CLOSED or CLOSING transport is detected during the pass, exactly those
connections are removed from the registry afterwards, the rest being kept. -/
theorem C7_broadcast_best_effort (reg : List WClient) :
    (broadcastToAll reg).attempted =
      (reg.filter fun c => decide (c.readyState = ReadyState.opened)).map WClient.id ∧
    (broadcastToAll reg).delivered =
      (reg.filter fun c => decide (c.readyState = ReadyState.opened) && c.sendOk).map WClient.id ∧
    (broadcastToAll reg).registry =
      (if reg.any isClosedOrClosing then cleanupClosedConnections reg else reg) := by
  refine ⟨?_, ?_, ?_⟩
  · show (broadcastPass reg).1 = _
    exact broadcastPass_attempted reg
  · show (broadcastPass reg).2.1 = _
    exact broadcastPass_delivered reg
  · show (if (broadcastPass reg).2.2 > 0 then cleanupClosedConnections reg else reg) = _
    rw [broadcastPass_closedDetected]
    by_cases h : reg.any isClosedOrClosing
    · rw [if_pos h]
      rcases List.any_eq_true.mp h with ⟨x, hx, hpx⟩
      have hmem : x ∈ reg.filter isClosedOrClosing := List.mem_filter.mpr ⟨hx, hpx⟩
      rw [if_pos (List.length_pos.mpr (List.ne_nil_of_mem hmem))]
    · rw [if_neg h]
      have hnil : reg.filter isClosedOrClosing = [] := by
        rw [List.filter_eq_nil_iff]
        intro x hx hpx
        exact h (List.any_eq_true.mpr ⟨x, hx, hpx⟩)
      rw [hnil]
      simp

/-- Message types the dispatcher in wsHandlers.js actually handles. -/
def knownMessageTypes : List String :=
  ["requestUpdate", "extendLimit", "clearDatabase", "ping", "getClients"]

/-- Database state holding one committed chat entry, used to exhibit a
mutation. -/
def dbOneEntry : DbState :=
  { dbInit with
      chat_history :=
        [{ id := 1
         , user_input := "hi"
         , response := "there"
         , gemini_token_count := 2
         , tiktoken_estimate := none
         , model := "gemini-1.5-flash"
         , temperature := 7 / 10
         , max_tokens := 1024
         , timestamp := 1 }]
    , seq := 1 }

/-- C8 as frozen is refuted at the message type clearDatabase: that type is not
in the list of known kinds the claim names (requestUpdate, extendLimit,
clear-history, ping, get-connections), yet the handler answers with a
clearDatabaseResponse tag, not an error tag, and mutates the history, because
the dispatcher of wsHandlers.js knows the discriminators clearDatabase and
getClients rather than clear-history and get-connections. -/
theorem C8_counterexample_clearDatabase :
    "clearDatabase" ∉
      ["requestUpdate", "extendLimit", "clear-history", "ping", "get-connections"] ∧
    (handleMessage "clearDatabase" none dbOneEntry []).toSender = ["clearDatabaseResponse"] ∧
    "error" ∉ (handleMessage "clearDatabase" none dbOneEntry []).toSender ∧
    (handleMessage "clearDatabase" none dbOneEntry []).db ≠ dbOneEntry := by
  decide

/-- C8 (amended): for every inbound message whose type discriminator is not one
of the kinds the dispatcher handles (requestUpdate, extendLimit, clearDatabase,
ping, getClients), the handler sends back exactly one response tagged error to
the sender, broadcasts nothing, and performs no ledger, history or registry
mutation; an unknown type is never silently dropped. -/
theorem C8_unknown_type_rejected (t : String) (amount : Option Int)
    (s : DbState) (reg : List WClient) (h : t ∉ knownMessageTypes) :
    handleMessage t amount s reg =
      { db := s, registry := reg, toSender := ["error"], toOthers := [] } := by
  simp only [knownMessageTypes, List.mem_cons, List.mem_singleton, not_or,
    List.not_mem_nil, or_false] at h
  obtain ⟨h1, h2, h3, h4, h5⟩ := h
  simp [handleMessage, h1, h2, h3, h4, h5]

/-- Witness for the amended C8 at the unknown type subscribe. -/
theorem C8_unknown_type_rejected_witness :
    handleMessage "subscribe" none dbInit [] =
      { db := dbInit, registry := [], toSender := ["error"], toOthers := [] } :=
  C8_unknown_type_rejected "subscribe" none dbInit [] (by decide)

/-- C9: a reported token count of zero, like an absent one, is treated as
missing: the commit records the history entry and performs the ledger increment
with the fallback estimate over the concatenation of input and response, never
with the reported zero. -/
theorem C9_zero_reported_count_uses_estimate (P T md : String) (opts : ChatOptions)
    (u : UsageStats) (s : DbState) (h : s.stats = some u) (g : Option Int)
    (hg : g = some 0 ∨ g = none) :
    ∃ e : ChatEntry,
      (addChatEntry P T g md opts true true s).1.chat_history = s.chat_history ++ [e] ∧
      e.gemini_token_count = ((simpleTokenEstimate (P ++ T) : Nat) : Int) ∧
      (addChatEntry P T g md opts true true s).1.stats =
        some { u with total_tokens_used :=
            u.total_tokens_used + ((simpleTokenEstimate (P ++ T) : Nat) : Int) } ∧
      (addChatEntry P T g md opts true true s).2 =
        Except.ok
          { chatId := s.seq + 1
          , tokensAdded := ((simpleTokenEstimate (P ++ T) : Nat) : Int) } := by
  have hchoose : chooseTokenCount g ((simpleTokenEstimate (P ++ T) : Nat) : Int) =
      ((simpleTokenEstimate (P ++ T) : Nat) : Int) := by
    rcases hg with hg | hg <;> simp [hg, chooseTokenCount]
  refine ⟨{ id := s.seq + 1
          , user_input := P
          , response := T
          , gemini_token_count := ((simpleTokenEstimate (P ++ T) : Nat) : Int)
          , tiktoken_estimate := none
          , model := md
          , temperature := jsOrRat opts.temperature (7 / 10)
          , max_tokens := jsOrInt opts.maxTokens 1024
          , timestamp := s.seq + 1 }, ?_, ?_, ?_, ?_⟩ <;>
    simp [addChatEntry_ok, h, hchoose]

/-- Witness for C9: committing with a reported count of zero on the initial
state records the estimate over the concatenation, not zero. -/
theorem C9_zero_reported_count_witness :
    ∃ e : ChatEntry,
      (addChatEntry "hi" "there" (some 0) "gemini-1.5-flash"
          { temperature := none, maxTokens := none } true true dbInit).1.chat_history =
        ([] : List ChatEntry) ++ [e] ∧
      e.gemini_token_count = ((simpleTokenEstimate ("hi" ++ "there") : Nat) : Int) ∧
      (addChatEntry "hi" "there" (some 0) "gemini-1.5-flash"
          { temperature := none, maxTokens := none } true true dbInit).1.stats =
        some { total_tokens_used := 0 + ((simpleTokenEstimate ("hi" ++ "there") : Nat) : Int)
             , total_limit := 10000 } ∧
      (addChatEntry "hi" "there" (some 0) "gemini-1.5-flash"
          { temperature := none, maxTokens := none } true true dbInit).2 =
        Except.ok
          { chatId := 0 + 1
          , tokensAdded := ((simpleTokenEstimate ("hi" ++ "there") : Nat) : Int) } :=
  C9_zero_reported_count_uses_estimate "hi" "there" "gemini-1.5-flash"
    { temperature := none, maxTokens := none }
    { total_tokens_used := 0, total_limit := 10000 } dbInit rfl (some 0) (Or.inl rfl)

/-- C10: every usage payload the system emits (the broadcast update, the
requestUpdate response, and the usage endpoint response) reports remaining as
the maximum of 0 and limit minus consumed, hence never negative, and in the
same payload exceeded holds exactly when consumed is at least the limit. -/
theorem C10_usage_payload_invariants (s : DbState) :
    ((broadcastUpdatePayload s).remaining =
        max 0 ((broadcastUpdatePayload s).limit - (broadcastUpdatePayload s).totalTokensUsed) ∧
      0 ≤ (broadcastUpdatePayload s).remaining ∧
      ((broadcastUpdatePayload s).exceeded = true ↔
        (broadcastUpdatePayload s).limit ≤ (broadcastUpdatePayload s).totalTokensUsed)) ∧
    ((requestUpdatePayload s).remaining =
        max 0 ((requestUpdatePayload s).limit - (requestUpdatePayload s).totalTokensUsed) ∧
      0 ≤ (requestUpdatePayload s).remaining ∧
      ((requestUpdatePayload s).exceeded = true ↔
        (requestUpdatePayload s).limit ≤ (requestUpdatePayload s).totalTokensUsed)) ∧
    ((apiUsagePayload s).remaining =
        max 0 ((apiUsagePayload s).limit - (apiUsagePayload s).totalTokensUsed) ∧
      0 ≤ (apiUsagePayload s).remaining ∧
      ((apiUsagePayload s).exceeded = true ↔
        (apiUsagePayload s).limit ≤ (apiUsagePayload s).totalTokensUsed)) := by
  refine ⟨⟨rfl, le_max_left 0 _, ?_⟩, ⟨rfl, le_max_left 0 _, ?_⟩, ?_⟩
  · simp [broadcastUpdatePayload, ge_iff_le]
  · simp [requestUpdatePayload, ge_iff_le]
  · by_cases h : (getTokenUsage s).total_tokens_used ≥ (getTokenUsage s).total_limit
    · refine ⟨?_, ?_, ?_⟩
      · simp only [apiUsagePayload, if_pos h]
        exact (max_eq_left (by omega)).symm
      · simp [apiUsagePayload, if_pos h]
      · simp [apiUsagePayload, if_pos h, ge_iff_le] at h ⊢
        omega
    · refine ⟨?_, ?_, ?_⟩
      · simp only [apiUsagePayload, if_neg h]
      · simp only [apiUsagePayload, if_neg h]
        exact le_max_left 0 _
      · simp [apiUsagePayload, if_neg h, ge_iff_le] at h ⊢
        omega

end ChatRelay
